import Mathlib

/-!
Shallow embedding of the StatusNotifierItem / DBusMenu tray subsystem
(crates/gpui/src/platform/linux/xdg_desktop_portal/status_notifier/).
Definitions mirror the Rust source; theorems check the specification
against them.
-/

namespace StatusNotifier

/-- `Pixmap` from item.rs: width, height, raw pixel bytes. -/
structure Pixmap where
  width : Int
  height : Int
  bytes : List Nat
deriving Repr, DecidableEq

/-- `Icon` from item.rs: tagged union of a named icon or a list of pixmaps. -/
inductive Icon where
  | Name : String → Icon
  | Pixmaps : List Pixmap → Icon
deriving Repr, DecidableEq

/-- `Icon::name_or_default`: the name when the `Name` variant, else the
default (empty) string. -/
def Icon.name_or_default : Icon → String
  | .Name name => name
  | _ => ""

/-- `Icon::pixmaps_or_default`: the pixmap list when the `Pixmaps` variant,
else the default (empty) list. -/
def Icon.pixmaps_or_default : Icon → List Pixmap
  | .Pixmaps pixmaps => pixmaps
  | _ => []

/-- `impl Default for Icon`: `Icon::Name(String::default())`. -/
instance : Inhabited Icon := ⟨Icon.Name ""⟩

/-- `ToolTip` from item.rs. -/
structure ToolTip where
  icon : Icon
  title : String
  description : String
deriving Repr, DecidableEq

/-- `Attention` from item.rs: attention icon plus movie name. -/
structure Attention where
  icon : Icon
  movie_name : String
deriving Repr, DecidableEq

/-- `Category` from item.rs. -/
inductive Category where
  | ApplicationStatus | Communications | SystemServices | Hardware
deriving Repr, DecidableEq

/-- `Display for Category` (debug formatting of the variant name). -/
def Category.toString : Category → String
  | .ApplicationStatus => "ApplicationStatus"
  | .Communications => "Communications"
  | .SystemServices => "SystemServices"
  | .Hardware => "Hardware"

/-- `Status` from item.rs. -/
inductive Status where
  | Active | Passive | NeedsAttention
deriving Repr, DecidableEq

/-- `Display for Status` (debug formatting of the variant name). -/
def Status.toString : Status → String
  | .Active => "Active"
  | .Passive => "Passive"
  | .NeedsAttention => "NeedsAttention"

/-- `StatusNotifierItemOptions` from item.rs: the whole tray-icon state. -/
structure StatusNotifierItemOptions where
  category : Category
  title : String
  status : Status
  window_id : Nat
  icon_theme_path : String
  icon : Icon
  overlay : Icon
  attention : Attention
  is_menu : Bool
  tooltip : ToolTip
deriving Repr, DecidableEq

/-- `StatusNotifierItemOptions::default()` (derived `Default`). -/
def StatusNotifierItemOptions.default : StatusNotifierItemOptions :=
  { category := .ApplicationStatus
    title := ""
    status := .Active
    window_id := 0
    icon_theme_path := ""
    icon := Icon.Name ""
    overlay := Icon.Name ""
    attention := { icon := Icon.Name "", movie_name := "" }
    is_menu := false
    tooltip := { icon := Icon.Name "", title := "", description := "" } }

/-! ## DBusMenu data model (dbusmenu.rs) -/

/-- The variant values actually stored in the property bag of a layout item
(only strings are ever inserted by this code). -/
inductive PropValue where
  | str : String → PropValue
deriving Repr, DecidableEq

/-- `Submenu` from dbusmenu.rs: one node of the application menu tree. -/
inductive Submenu where
  | mk : Int → Option String → Option String → List Submenu → Submenu
deriving Repr

/-- Node id. -/
def Submenu.id : Submenu → Int
  | .mk i _ _ _ => i

/-- Optional icon name. -/
def Submenu.icon_name : Submenu → Option String
  | .mk _ ic _ _ => ic

/-- Optional label. -/
def Submenu.label : Submenu → Option String
  | .mk _ _ lb _ => lb

/-- Ordered child list. -/
def Submenu.children : Submenu → List Submenu
  | .mk _ _ _ cs => cs

/-- `DBusMenuLayoutItem` from dbusmenu.rs: the wire layout node.  The Rust
`HashMap<String, Value>` property bag is embedded as an association list in
insertion order (the three keys ever inserted are pairwise distinct, so
lookup is faithful). -/
inductive DBusMenuLayoutItem where
  | mk : Int → List (String × PropValue) → List DBusMenuLayoutItem → DBusMenuLayoutItem
deriving Repr

/-- Wire node id. -/
def DBusMenuLayoutItem.id : DBusMenuLayoutItem → Int
  | .mk i _ _ => i

/-- Wire node property bag. -/
def DBusMenuLayoutItem.properties : DBusMenuLayoutItem → List (String × PropValue)
  | .mk _ ps _ => ps

/-- Wire node children. -/
def DBusMenuLayoutItem.children : DBusMenuLayoutItem → List DBusMenuLayoutItem
  | .mk _ _ cs => cs

mutual

/-- `impl From<Submenu> for DBusMenuLayoutItem`: start from the default
layout item with the id of the node; insert `icon-name` when the icon name is
set; insert `label` when the label is set; when the child list is
non-empty insert `children-display = "submenu"` and push each converted
child in input order. -/
def Submenu.toLayout : Submenu → DBusMenuLayoutItem
  | .mk i ic lb cs =>
    let props₀ : List (String × PropValue) := []
    let props₁ := match ic with
      | some icon => props₀ ++ [("icon-name", PropValue.str icon)]
      | none => props₀
    let props₂ := match lb with
      | some label => props₁ ++ [("label", PropValue.str label)]
      | none => props₁
    if cs.isEmpty then
      .mk i props₂ []
    else
      .mk i (props₂ ++ [("children-display", PropValue.str "submenu")])
        (Submenu.toLayoutList cs)

/-- The `for child in value.children { menu.children.push(...) }` loop:
each child converted in input order. -/
def Submenu.toLayoutList : List Submenu → List DBusMenuLayoutItem
  | [] => []
  | c :: cs => Submenu.toLayout c :: Submenu.toLayoutList cs

end

/-- The child-conversion loop is a plain map over the children. -/
theorem Submenu.toLayoutList_eq_map (cs : List Submenu) :
    Submenu.toLayoutList cs = cs.map Submenu.toLayout := by
  induction cs with
  | nil => rfl
  | cons c cs ih => simp [Submenu.toLayoutList, ih]

/-- `Menu` from dbusmenu.rs: root-level children of the tray menu. -/
structure Menu where
  children : List Submenu

/-- `DBusMenuEvents` from dbusmenu.rs. -/
inductive DBusMenuEvents where
  | MenuClick : Int → DBusMenuEvents
deriving Repr, DecidableEq

/-- `StatusNotifierItemEvents` from item.rs: the only data crossing from
the bus executor into the host event loop. -/
inductive StatusNotifierItemEvents where
  | Activate : Int → Int → StatusNotifierItemEvents
  | SecondaryActivate : Int → Int → StatusNotifierItemEvents
  | XdgActivationToken : String → StatusNotifierItemEvents
  | Scroll : Int → String → StatusNotifierItemEvents
  | MenuEvent : DBusMenuEvents → StatusNotifierItemEvents
deriving Repr, DecidableEq

/-! ## Event Bridge (calloop channel, item.rs / dbusmenu.rs call sites)

The channel itself is the external `calloop::channel` crate, not part of
the sources of this repository. -/

/-- Modelled from the spec: the calloop unbounded channel used as the
Event Bridge (the crate is external to this repository; only its call
sites are in src/).  Per the spec, a send never blocks and never fails
except when the receiving half has been dropped, in which case it returns
an error without panicking and the message is discarded. -/
structure Channel (α : Type) where
  queue : List α
  receiver_alive : Bool

/-- Modelled from the spec: the error the channel send returns once the
receiving half has been dropped. -/
inductive SendError where
  | disconnected
deriving Repr, DecidableEq

/-- Modelled from the spec: `Sender::send` — appends the message when the
receiver is alive, otherwise leaves the queue unchanged and reports
`disconnected`. -/
def Channel.send {α : Type} (ch : Channel α) (msg : α) :
    Channel α × Except SendError Unit :=
  if ch.receiver_alive then
    ({ ch with queue := ch.queue ++ [msg] }, Except.ok ())
  else
    (ch, Except.error SendError.disconnected)

/-- The send pattern of the repository `let _ = tx.send(msg);` (item.rs event
closures, dbusmenu.rs `event`): perform the send and discard the result,
so no error reaches the caller. -/
def Channel.send_discard {α : Type} (ch : Channel α) (msg : α) : Channel α :=
  (ch.send msg).1

/-! ## DBusMenuInterface (dbusmenu.rs) -/

/-- `DBusMenuInterface` state: the menu tree and the optional event
sender.  The sender is represented by whether it is installed; the channel
it feeds is passed explicitly where the send effect matters. -/
structure DBusMenuInterface where
  menu : Menu
  event_sender : Option Unit

/-- `DBusMenuInterface::get_layout`: builds a default layout item; when
the root child list is non-empty inserts `children-display = "submenu"`
and pushes each converted child; returns revision `0` with it.  The three
request parameters are accepted but unused, exactly as in the source. -/
def DBusMenuInterface.get_layout (iface : DBusMenuInterface)
    (_parent_id : Int) (_recursion_depth : Int) (_property_names : List String) :
    Nat × DBusMenuLayoutItem :=
  let main_menu : DBusMenuLayoutItem :=
    if iface.menu.children.isEmpty then
      .mk 0 [] []
    else
      .mk 0 [("children-display", PropValue.str "submenu")]
        (iface.menu.children.map Submenu.toLayout)
  (0, main_menu)

/-- `DBusMenuInterface::event`: when `event_id == "clicked"` and a sender
is installed, send `MenuEvent (MenuClick id)` into the bridge channel with
the result discarded; otherwise do nothing.  Returns the channel after the
call together with the list of messages passed to `send` during the call. -/
def DBusMenuInterface.event (iface : DBusMenuInterface)
    (ch : Channel StatusNotifierItemEvents) (id : Int) (event_id : String)
    (_event_data : PropValue) (_timestamp : Nat) :
    Channel StatusNotifierItemEvents × List StatusNotifierItemEvents :=
  if event_id = "clicked" then
    match iface.event_sender with
    | some _ =>
        let msg := StatusNotifierItemEvents.MenuEvent (DBusMenuEvents.MenuClick id)
        (ch.send_discard msg, [msg])
    | none => (ch, [])
  else
    (ch, [])

/-- `DBusMenuInterface::about_to_show`: constant `false`. -/
def DBusMenuInterface.about_to_show (_iface : DBusMenuInterface) (_id : Int) : Bool :=
  false

/-! ## StatusNotifierItemInterface (item.rs) -/

/-- `Callbacks` from item.rs: the optional boxed callback slots.  `ρ` is
the (discarded) result type of the application-supplied closures. -/
structure Callbacks (ρ : Type) where
  on_context_menu : Option (Int → Int → ρ)
  on_activate : Option (Int → Int → ρ)
  on_secondary_activate : Option (Int → Int → ρ)
  on_scroll : Option (Int → String → ρ)
  on_provide_xdg_activation_token : Option (String → ρ)

/-- `StatusNotifierItemInterface` state from item.rs. -/
structure StatusNotifierItemInterface (ρ : Type) where
  id : String
  callbacks : Callbacks ρ
  options : StatusNotifierItemOptions
  menu : Option String

namespace StatusNotifierItemInterface

variable {ρ : Type}

/-- `context_menu`: `self.callbacks.on_context_menu.as_ref().map(|f| f(x, y))`,
result discarded.  The method takes `&self`, so the state is returned
unchanged; the `Option ρ` is the discarded value of the `map`. -/
def context_menu (iface : StatusNotifierItemInterface ρ) (x y : Int) :
    StatusNotifierItemInterface ρ × Option ρ :=
  (iface, iface.callbacks.on_context_menu.map (fun f => f x y))

/-- `activate`: invoke the optional `on_activate` callback, discarding its
result; state unchanged (`&self`). -/
def activate (iface : StatusNotifierItemInterface ρ) (x y : Int) :
    StatusNotifierItemInterface ρ × Option ρ :=
  (iface, iface.callbacks.on_activate.map (fun f => f x y))

/-- `secondary_activate`: invoke the optional `on_secondary_activate`
callback, discarding its result; state unchanged (`&self`). -/
def secondary_activate (iface : StatusNotifierItemInterface ρ) (x y : Int) :
    StatusNotifierItemInterface ρ × Option ρ :=
  (iface, iface.callbacks.on_secondary_activate.map (fun f => f x y))

/-- `scroll`: invoke the optional `on_scroll` callback, discarding its
result; state unchanged (`&self`). -/
def scroll (iface : StatusNotifierItemInterface ρ) (delta : Int) (orientation : String) :
    StatusNotifierItemInterface ρ × Option ρ :=
  (iface, iface.callbacks.on_scroll.map (fun f => f delta orientation))

/-- `provide_xdg_activation_token`: invoke the optional callback,
discarding its result; state unchanged (`&self`). -/
def provide_xdg_activation_token (iface : StatusNotifierItemInterface ρ) (token : String) :
    StatusNotifierItemInterface ρ × Option ρ :=
  (iface, iface.callbacks.on_provide_xdg_activation_token.map (fun f => f token))

/-- Property read `IconName`: `self.options.icon.clone().name_or_default()`. -/
def icon_name (iface : StatusNotifierItemInterface ρ) : String :=
  iface.options.icon.name_or_default

/-- Property read `IconPixmap`: `self.options.icon.clone().pixmaps_or_default()`. -/
def icon_pixmap (iface : StatusNotifierItemInterface ρ) : List Pixmap :=
  iface.options.icon.pixmaps_or_default

/-- Property read `OverlayIconName`. -/
def overlay_icon_name (iface : StatusNotifierItemInterface ρ) : String :=
  iface.options.overlay.name_or_default

/-- Property read `OverlayIconPixmap`. -/
def overlay_icon_pixmap (iface : StatusNotifierItemInterface ρ) : List Pixmap :=
  iface.options.overlay.pixmaps_or_default

/-- Property read `AttentionIconName`. -/
def attention_icon_name (iface : StatusNotifierItemInterface ρ) : String :=
  iface.options.attention.icon.name_or_default

/-- Property read `AttentionIconPixmap`. -/
def attention_icon_pixmap (iface : StatusNotifierItemInterface ρ) : List Pixmap :=
  iface.options.attention.icon.pixmaps_or_default

end StatusNotifierItemInterface

/-! ## StatusNotifierItem setters (item.rs, lines 468–540)

Each Rust setter locks the interface, mutates one field of
`iface.options`, then emits one D-Bus signal and propagates the bus
result with `?`.  The embedding passes the bus as a function from the
emitted signal to the bus outcome, and records the new options, the
signals emitted (in order) and the propagated result. -/

/-- The six outbound `org.kde.StatusNotifierItem` signals. -/
inductive Signal where
  | NewTitle
  | NewIcon
  | NewAttentionIcon
  | NewOverlayIcon
  | NewToolTip
  | NewStatus : String → Signal
deriving Repr, DecidableEq

/-- The observable outcome of one setter call: the options after the
mutation, the signals the setter emitted, and the `zbus::Result` returned
to the caller. -/
structure SetterRun (ε : Type) where
  options : StatusNotifierItemOptions
  emitted : List Signal
  result : Except ε Unit

variable {ε : Type}

/-- `StatusNotifierItem::set_title`: write `options.title`, then emit
`NewTitle` and propagate the bus result. -/
def set_title (opts : StatusNotifierItemOptions) (title : String)
    (bus : Signal → Except ε Unit) : SetterRun ε :=
  { options := { opts with title := title }
    emitted := [Signal.NewTitle]
    result := bus Signal.NewTitle }

/-- `StatusNotifierItem::set_icon`: write `options.icon`, then emit
`NewIcon` and propagate the bus result. -/
def set_icon (opts : StatusNotifierItemOptions) (icon : Icon)
    (bus : Signal → Except ε Unit) : SetterRun ε :=
  { options := { opts with icon := icon }
    emitted := [Signal.NewIcon]
    result := bus Signal.NewIcon }

/-- `StatusNotifierItem::set_overlay`: write `options.overlay`, then emit
`NewIcon` (the source calls `new_icon`, not `new_overlay_icon`) and
propagate the bus result. -/
def set_overlay (opts : StatusNotifierItemOptions) (overlay : Icon)
    (bus : Signal → Except ε Unit) : SetterRun ε :=
  { options := { opts with overlay := overlay }
    emitted := [Signal.NewIcon]
    result := bus Signal.NewIcon }

/-- `StatusNotifierItem::set_attention`: write `options.attention`, then
emit `NewIcon` (the source calls `new_icon`, not `new_attention_icon`) and
propagate the bus result. -/
def set_attention (opts : StatusNotifierItemOptions) (attention : Attention)
    (bus : Signal → Except ε Unit) : SetterRun ε :=
  { options := { opts with attention := attention }
    emitted := [Signal.NewIcon]
    result := bus Signal.NewIcon }

/-- `StatusNotifierItem::set_tooltip`: write `options.tooltip`, then emit
`NewToolTip` and propagate the bus result. -/
def set_tooltip (opts : StatusNotifierItemOptions) (tooltip : ToolTip)
    (bus : Signal → Except ε Unit) : SetterRun ε :=
  { options := { opts with tooltip := tooltip }
    emitted := [Signal.NewToolTip]
    result := bus Signal.NewToolTip }

/-- `StatusNotifierItem::set_tooltip_title`: write `options.tooltip.title`,
then emit `NewToolTip` and propagate the bus result. -/
def set_tooltip_title (opts : StatusNotifierItemOptions) (title : String)
    (bus : Signal → Except ε Unit) : SetterRun ε :=
  { options := { opts with tooltip := { opts.tooltip with title := title } }
    emitted := [Signal.NewToolTip]
    result := bus Signal.NewToolTip }

/-- `StatusNotifierItem::set_tooltip_description`: write
`options.tooltip.description`, then emit `NewToolTip` and propagate the
bus result. -/
def set_tooltip_description (opts : StatusNotifierItemOptions) (description : String)
    (bus : Signal → Except ε Unit) : SetterRun ε :=
  { options := { opts with tooltip := { opts.tooltip with description := description } }
    emitted := [Signal.NewToolTip]
    result := bus Signal.NewToolTip }

/-- `StatusNotifierItem::set_status`: format the new status, write
`options.status`, then emit `NewStatus` carrying the formatted status and
propagate the bus result. -/
def set_status (opts : StatusNotifierItemOptions) (status : Status)
    (bus : Signal → Except ε Unit) : SetterRun ε :=
  let status_str := status.toString
  { options := { opts with status := status }
    emitted := [Signal.NewStatus status_str]
    result := bus (Signal.NewStatus status_str) }

/-- `StatusNotifierItem::set_category`: format the new category, write
`options.category`, then emit `NewStatus` carrying the formatted category
string (the source calls `new_status`) and propagate the bus result. -/
def set_category (opts : StatusNotifierItemOptions) (category : Category)
    (bus : Signal → Except ε Unit) : SetterRun ε :=
  let category_str := category.toString
  { options := { opts with category := category }
    emitted := [Signal.NewStatus category_str]
    result := bus (Signal.NewStatus category_str) }

/-! ## Concrete states used by examples and witnesses -/

/-- The example menu of spec §8: root children ids 2 and 3 with labels. -/
def exampleMenu : DBusMenuInterface :=
  { menu := ⟨[Submenu.mk 2 none (some "Toggle Check") [],
              Submenu.mk 3 none (some "Toggle Visible") []]⟩
    event_sender := some () }

/-! ## Theorems -/

/-- C2: the serializer maps a `Submenu` to a `DBusMenuLayoutItem` with the
same id; the property bag holds `icon-name` exactly when the icon name is
set (with the icon name as value), `label` exactly when the label is set,
and `children-display = "submenu"` exactly when the node has at least one
child; the children list is the input child list converted recursively in
order, of equal length, with no node skipped, reordered, or deduplicated;
and a node with no icon, no label and no children serializes to its id,
an empty bag and no children. -/
theorem submenu_serialization_spec (node : Submenu) :
    node.toLayout.id = node.id
  ∧ node.toLayout.properties.lookup "icon-name" = node.icon_name.map PropValue.str
  ∧ node.toLayout.properties.lookup "label" = node.label.map PropValue.str
  ∧ node.toLayout.properties.lookup "children-display"
      = (if node.children.isEmpty then none else some (PropValue.str "submenu"))
  ∧ node.toLayout.children = node.children.map Submenu.toLayout
  ∧ node.toLayout.children.length = node.children.length
  ∧ (∀ i : Int, (Submenu.mk i none none []).toLayout = DBusMenuLayoutItem.mk i [] []) := by
  obtain ⟨i, ic, lb, cs⟩ := node
  cases ic <;> cases lb <;> cases cs <;>
    simp [Submenu.toLayout, Submenu.toLayoutList_eq_map, Submenu.id, Submenu.icon_name,
      Submenu.label, Submenu.children, DBusMenuLayoutItem.id, DBusMenuLayoutItem.properties,
      DBusMenuLayoutItem.children, List.lookup]

/-- C9: `about_to_show` returns `false` for every id, including `0` and
negative ids. -/
theorem about_to_show_const_false (iface : DBusMenuInterface) (id : Int) :
    iface.about_to_show id = false := rfl

/-- C3: `get_layout` ignores all three request parameters and always
returns revision `0` together with the serialization of the entire tree
from the root (id `0`, the root children converted in order); on the §8
example menu the root carries `children-display = "submenu"` and two
children with ids 2 and 3, each carrying its label and no
`children-display` key. -/
theorem get_layout_full_tree_spec (iface : DBusMenuInterface) (p r : Int)
    (ns : List String) :
    iface.get_layout p r ns = iface.get_layout 0 (-1) []
  ∧ (iface.get_layout p r ns).1 = 0
  ∧ (iface.get_layout p r ns).2.id = 0
  ∧ (iface.get_layout p r ns).2.children = iface.menu.children.map Submenu.toLayout
  ∧ (exampleMenu.get_layout 0 (-1) []).2.properties.lookup "children-display"
      = some (PropValue.str "submenu")
  ∧ (exampleMenu.get_layout 0 (-1) []).2.children.map DBusMenuLayoutItem.id = [2, 3]
  ∧ (exampleMenu.get_layout 0 (-1) []).2.children.map
      (fun c => c.properties.lookup "label")
      = [some (PropValue.str "Toggle Check"), some (PropValue.str "Toggle Visible")]
  ∧ (exampleMenu.get_layout 0 (-1) []).2.children.map
      (fun c => c.properties.lookup "children-display") = [none, none] := by
  obtain ⟨⟨cs⟩, es⟩ := iface
  cases cs <;>
    exact ⟨rfl, rfl, rfl, rfl, rfl, rfl, rfl, rfl⟩

/-- C4: with a sender installed, `event` with event id `"clicked"` sends
exactly one `MenuEvent (MenuClick id)` into the Event Bridge, and any
other event id sends nothing and is ignored without error. -/
theorem event_clicked_spec (iface : DBusMenuInterface)
    (ch : Channel StatusNotifierItemEvents) (id : Int) (data : PropValue)
    (ts : Nat) (h : iface.event_sender = some ()) :
    (iface.event ch id "clicked" data ts).2
      = [StatusNotifierItemEvents.MenuEvent (DBusMenuEvents.MenuClick id)]
  ∧ ∀ eid, eid ≠ "clicked" → (iface.event ch id eid data ts).2 = [] := by
  constructor
  · simp [DBusMenuInterface.event, h]
  · intro eid hne
    simp [DBusMenuInterface.event, hne]

/-- Witness for C4 at concrete inputs. -/
theorem event_clicked_spec_witness :
    (exampleMenu.event ⟨[], true⟩ 7 "clicked" (PropValue.str "") 0).2
      = [StatusNotifierItemEvents.MenuEvent (DBusMenuEvents.MenuClick 7)]
  ∧ (exampleMenu.event ⟨[], true⟩ 7 "opened" (PropValue.str "") 0).2 = [] := by
  have h := event_clicked_spec exampleMenu ⟨[], true⟩ 7 (PropValue.str "") 0 rfl
  exact ⟨h.1, h.2 "opened" (by decide)⟩

/-- C5: every setter replaces exactly its targeted field (or targeted
tooltip sub-field) of `StatusNotifierItemOptions` and leaves every other
field unchanged, for every starting state. -/
theorem setter_frame_spec {ε : Type} (opts : StatusNotifierItemOptions)
    (bus : Signal → Except ε Unit) (t : String) (i : Icon) (o : Icon)
    (a : Attention) (tp : ToolTip) (tt : String) (td : String) (s : Status)
    (c : Category) :
    ((set_title opts t bus).options.title = t
      ∧ (set_title opts t bus).options.category = opts.category
      ∧ (set_title opts t bus).options.status = opts.status
      ∧ (set_title opts t bus).options.window_id = opts.window_id
      ∧ (set_title opts t bus).options.icon_theme_path = opts.icon_theme_path
      ∧ (set_title opts t bus).options.icon = opts.icon
      ∧ (set_title opts t bus).options.overlay = opts.overlay
      ∧ (set_title opts t bus).options.attention = opts.attention
      ∧ (set_title opts t bus).options.is_menu = opts.is_menu
      ∧ (set_title opts t bus).options.tooltip = opts.tooltip)
  ∧ ((set_icon opts i bus).options.icon = i
      ∧ (set_icon opts i bus).options.category = opts.category
      ∧ (set_icon opts i bus).options.title = opts.title
      ∧ (set_icon opts i bus).options.status = opts.status
      ∧ (set_icon opts i bus).options.window_id = opts.window_id
      ∧ (set_icon opts i bus).options.icon_theme_path = opts.icon_theme_path
      ∧ (set_icon opts i bus).options.overlay = opts.overlay
      ∧ (set_icon opts i bus).options.attention = opts.attention
      ∧ (set_icon opts i bus).options.is_menu = opts.is_menu
      ∧ (set_icon opts i bus).options.tooltip = opts.tooltip)
  ∧ ((set_overlay opts o bus).options.overlay = o
      ∧ (set_overlay opts o bus).options.category = opts.category
      ∧ (set_overlay opts o bus).options.title = opts.title
      ∧ (set_overlay opts o bus).options.status = opts.status
      ∧ (set_overlay opts o bus).options.window_id = opts.window_id
      ∧ (set_overlay opts o bus).options.icon_theme_path = opts.icon_theme_path
      ∧ (set_overlay opts o bus).options.icon = opts.icon
      ∧ (set_overlay opts o bus).options.attention = opts.attention
      ∧ (set_overlay opts o bus).options.is_menu = opts.is_menu
      ∧ (set_overlay opts o bus).options.tooltip = opts.tooltip)
  ∧ ((set_attention opts a bus).options.attention = a
      ∧ (set_attention opts a bus).options.category = opts.category
      ∧ (set_attention opts a bus).options.title = opts.title
      ∧ (set_attention opts a bus).options.status = opts.status
      ∧ (set_attention opts a bus).options.window_id = opts.window_id
      ∧ (set_attention opts a bus).options.icon_theme_path = opts.icon_theme_path
      ∧ (set_attention opts a bus).options.icon = opts.icon
      ∧ (set_attention opts a bus).options.overlay = opts.overlay
      ∧ (set_attention opts a bus).options.is_menu = opts.is_menu
      ∧ (set_attention opts a bus).options.tooltip = opts.tooltip)
  ∧ ((set_tooltip opts tp bus).options.tooltip = tp
      ∧ (set_tooltip opts tp bus).options.category = opts.category
      ∧ (set_tooltip opts tp bus).options.title = opts.title
      ∧ (set_tooltip opts tp bus).options.status = opts.status
      ∧ (set_tooltip opts tp bus).options.window_id = opts.window_id
      ∧ (set_tooltip opts tp bus).options.icon_theme_path = opts.icon_theme_path
      ∧ (set_tooltip opts tp bus).options.icon = opts.icon
      ∧ (set_tooltip opts tp bus).options.overlay = opts.overlay
      ∧ (set_tooltip opts tp bus).options.attention = opts.attention
      ∧ (set_tooltip opts tp bus).options.is_menu = opts.is_menu)
  ∧ ((set_tooltip_title opts tt bus).options.tooltip.title = tt
      ∧ (set_tooltip_title opts tt bus).options.tooltip.icon = opts.tooltip.icon
      ∧ (set_tooltip_title opts tt bus).options.tooltip.description = opts.tooltip.description
      ∧ (set_tooltip_title opts tt bus).options.category = opts.category
      ∧ (set_tooltip_title opts tt bus).options.title = opts.title
      ∧ (set_tooltip_title opts tt bus).options.status = opts.status
      ∧ (set_tooltip_title opts tt bus).options.window_id = opts.window_id
      ∧ (set_tooltip_title opts tt bus).options.icon_theme_path = opts.icon_theme_path
      ∧ (set_tooltip_title opts tt bus).options.icon = opts.icon
      ∧ (set_tooltip_title opts tt bus).options.overlay = opts.overlay
      ∧ (set_tooltip_title opts tt bus).options.attention = opts.attention
      ∧ (set_tooltip_title opts tt bus).options.is_menu = opts.is_menu)
  ∧ ((set_tooltip_description opts td bus).options.tooltip.description = td
      ∧ (set_tooltip_description opts td bus).options.tooltip.icon = opts.tooltip.icon
      ∧ (set_tooltip_description opts td bus).options.tooltip.title = opts.tooltip.title
      ∧ (set_tooltip_description opts td bus).options.category = opts.category
      ∧ (set_tooltip_description opts td bus).options.title = opts.title
      ∧ (set_tooltip_description opts td bus).options.status = opts.status
      ∧ (set_tooltip_description opts td bus).options.window_id = opts.window_id
      ∧ (set_tooltip_description opts td bus).options.icon_theme_path = opts.icon_theme_path
      ∧ (set_tooltip_description opts td bus).options.icon = opts.icon
      ∧ (set_tooltip_description opts td bus).options.overlay = opts.overlay
      ∧ (set_tooltip_description opts td bus).options.attention = opts.attention
      ∧ (set_tooltip_description opts td bus).options.is_menu = opts.is_menu)
  ∧ ((set_status opts s bus).options.status = s
      ∧ (set_status opts s bus).options.category = opts.category
      ∧ (set_status opts s bus).options.title = opts.title
      ∧ (set_status opts s bus).options.window_id = opts.window_id
      ∧ (set_status opts s bus).options.icon_theme_path = opts.icon_theme_path
      ∧ (set_status opts s bus).options.icon = opts.icon
      ∧ (set_status opts s bus).options.overlay = opts.overlay
      ∧ (set_status opts s bus).options.attention = opts.attention
      ∧ (set_status opts s bus).options.is_menu = opts.is_menu
      ∧ (set_status opts s bus).options.tooltip = opts.tooltip)
  ∧ ((set_category opts c bus).options.category = c
      ∧ (set_category opts c bus).options.title = opts.title
      ∧ (set_category opts c bus).options.status = opts.status
      ∧ (set_category opts c bus).options.window_id = opts.window_id
      ∧ (set_category opts c bus).options.icon_theme_path = opts.icon_theme_path
      ∧ (set_category opts c bus).options.icon = opts.icon
      ∧ (set_category opts c bus).options.overlay = opts.overlay
      ∧ (set_category opts c bus).options.attention = opts.attention
      ∧ (set_category opts c bus).options.is_menu = opts.is_menu
      ∧ (set_category opts c bus).options.tooltip = opts.tooltip) := by
  repeat' apply And.intro
  all_goals rfl

/-- C6: in every setter the local field mutation happens before the
signal emission: when the bus fails, the error is propagated to the
caller while the in-memory field has already been updated to the new
value (no rollback). -/
theorem setter_error_propagation_spec {ε : Type} (opts : StatusNotifierItemOptions)
    (e : ε) (t : String) (i : Icon) (o : Icon) (a : Attention) (tp : ToolTip)
    (tt : String) (td : String) (s : Status) (c : Category) :
    ((set_title opts t (fun _ => Except.error e)).result = Except.error e
      ∧ (set_title opts t (fun _ => Except.error e)).options.title = t)
  ∧ ((set_icon opts i (fun _ => Except.error e)).result = Except.error e
      ∧ (set_icon opts i (fun _ => Except.error e)).options.icon = i)
  ∧ ((set_overlay opts o (fun _ => Except.error e)).result = Except.error e
      ∧ (set_overlay opts o (fun _ => Except.error e)).options.overlay = o)
  ∧ ((set_attention opts a (fun _ => Except.error e)).result = Except.error e
      ∧ (set_attention opts a (fun _ => Except.error e)).options.attention = a)
  ∧ ((set_tooltip opts tp (fun _ => Except.error e)).result = Except.error e
      ∧ (set_tooltip opts tp (fun _ => Except.error e)).options.tooltip = tp)
  ∧ ((set_tooltip_title opts tt (fun _ => Except.error e)).result = Except.error e
      ∧ (set_tooltip_title opts tt (fun _ => Except.error e)).options.tooltip.title = tt)
  ∧ ((set_tooltip_description opts td (fun _ => Except.error e)).result = Except.error e
      ∧ (set_tooltip_description opts td (fun _ => Except.error e)).options.tooltip.description = td)
  ∧ ((set_status opts s (fun _ => Except.error e)).result = Except.error e
      ∧ (set_status opts s (fun _ => Except.error e)).options.status = s)
  ∧ ((set_category opts c (fun _ => Except.error e)).result = Except.error e
      ∧ (set_category opts c (fun _ => Except.error e)).options.category = c) := by
  repeat' apply And.intro
  all_goals rfl

/-- C1: the signal wiring diverges from the spec at concrete inputs:
`set_overlay` and `set_attention` emit `NewIcon` (the source calls
`new_icon`) rather than `NewOverlayIcon` / `NewAttentionIcon`, and
`set_category` emits `NewStatus` carrying the category string even though
no status changed. -/
theorem setter_signal_divergence :
    (set_overlay StatusNotifierItemOptions.default (Icon.Name "net")
        (fun _ => (Except.ok () : Except Unit Unit))).emitted = [Signal.NewIcon]
  ∧ (set_attention StatusNotifierItemOptions.default ⟨Icon.Name "alert", ""⟩
        (fun _ => (Except.ok () : Except Unit Unit))).emitted = [Signal.NewIcon]
  ∧ (set_category StatusNotifierItemOptions.default Category.Hardware
        (fun _ => (Except.ok () : Except Unit Unit))).emitted
      = [Signal.NewStatus "Hardware"]
  ∧ Signal.NewOverlayIcon ∉ (set_overlay StatusNotifierItemOptions.default
        (Icon.Name "net") (fun _ => (Except.ok () : Except Unit Unit))).emitted
  ∧ Signal.NewAttentionIcon ∉ (set_attention StatusNotifierItemOptions.default
        ⟨Icon.Name "alert", ""⟩ (fun _ => (Except.ok () : Except Unit Unit))).emitted := by
  refine ⟨rfl, rfl, rfl, ?_, ?_⟩ <;> decide

/-- C7: once the receiving half of the Event Bridge is dropped, a send
through the discard pattern of the repository completes without surfacing an
error and the event is silently discarded (the channel is unchanged), and
the menu `event` handler likewise completes with the channel unchanged. -/
theorem send_after_drop_spec (ch : Channel StatusNotifierItemEvents)
    (h : ch.receiver_alive = false) :
    (∀ msg, ch.send_discard msg = ch
      ∧ (ch.send msg).2 = Except.error SendError.disconnected)
  ∧ (∀ iface id data ts,
      (DBusMenuInterface.event iface ch id "clicked" data ts).1 = ch) := by
  constructor
  · intro msg
    constructor <;> simp [Channel.send_discard, Channel.send, h]
  · intro iface id data ts
    cases hs : iface.event_sender <;>
      simp [DBusMenuInterface.event, hs, Channel.send_discard, Channel.send, h]

/-- Witness for C7 at a concrete dropped-receiver channel. -/
theorem send_after_drop_spec_witness :
    Channel.send_discard ⟨[], false⟩ (StatusNotifierItemEvents.Activate 1 2)
      = (⟨[], false⟩ : Channel StatusNotifierItemEvents)
  ∧ (exampleMenu.event ⟨[], false⟩ 5 "clicked" (PropValue.str "") 0).1
      = (⟨[], false⟩ : Channel StatusNotifierItemEvents) := by
  have h := send_after_drop_spec ⟨[], false⟩ rfl
  exact ⟨(h.1 (StatusNotifierItemEvents.Activate 1 2)).1,
    h.2 exampleMenu 5 (PropValue.str "") 0⟩

/-- C8: each of the five inbound methods leaves the interface state
unchanged; with no callback registered the call is a silent no-op (no
invocation happens); with a callback registered it is invoked with the
arguments of the method and its result is discarded. -/
theorem inbound_method_spec {ρ : Type} (iface : StatusNotifierItemInterface ρ)
    (x y delta : Int) (ori token : String) :
    ((iface.context_menu x y).1 = iface
      ∧ (iface.activate x y).1 = iface
      ∧ (iface.secondary_activate x y).1 = iface
      ∧ (iface.scroll delta ori).1 = iface
      ∧ (iface.provide_xdg_activation_token token).1 = iface)
  ∧ ((iface.callbacks.on_context_menu = none → (iface.context_menu x y).2 = none)
      ∧ (iface.callbacks.on_activate = none → (iface.activate x y).2 = none)
      ∧ (iface.callbacks.on_secondary_activate = none →
          (iface.secondary_activate x y).2 = none)
      ∧ (iface.callbacks.on_scroll = none → (iface.scroll delta ori).2 = none)
      ∧ (iface.callbacks.on_provide_xdg_activation_token = none →
          (iface.provide_xdg_activation_token token).2 = none))
  ∧ ((∀ f, iface.callbacks.on_context_menu = some f →
        (iface.context_menu x y).2 = some (f x y))
      ∧ (∀ f, iface.callbacks.on_activate = some f →
          (iface.activate x y).2 = some (f x y))
      ∧ (∀ f, iface.callbacks.on_secondary_activate = some f →
          (iface.secondary_activate x y).2 = some (f x y))
      ∧ (∀ f, iface.callbacks.on_scroll = some f →
          (iface.scroll delta ori).2 = some (f delta ori))
      ∧ (∀ f, iface.callbacks.on_provide_xdg_activation_token = some f →
          (iface.provide_xdg_activation_token token).2 = some (f token))) := by
  refine ⟨⟨rfl, rfl, rfl, rfl, rfl⟩, ⟨?_, ?_, ?_, ?_, ?_⟩, ⟨?_, ?_, ?_, ?_, ?_⟩⟩
  all_goals
    first
    | (intro h
       simp [StatusNotifierItemInterface.context_menu, StatusNotifierItemInterface.activate,
         StatusNotifierItemInterface.secondary_activate, StatusNotifierItemInterface.scroll,
         StatusNotifierItemInterface.provide_xdg_activation_token, h])
    | (intro f hf
       simp [StatusNotifierItemInterface.context_menu, StatusNotifierItemInterface.activate,
         StatusNotifierItemInterface.secondary_activate, StatusNotifierItemInterface.scroll,
         StatusNotifierItemInterface.provide_xdg_activation_token, hf])

/-- A concrete interface state with some callbacks registered and some
absent, used by the inbound-method witness. -/
def c8iface : StatusNotifierItemInterface Int :=
  { id := "42"
    callbacks :=
      { on_context_menu := none
        on_activate := some (fun x y => x + y)
        on_secondary_activate := none
        on_scroll := some (fun d _ => d)
        on_provide_xdg_activation_token := none }
    options := StatusNotifierItemOptions.default
    menu := some "/MenuBar" }

/-- Witness for C8 at a concrete interface state. -/
theorem inbound_method_spec_witness :
    (c8iface.context_menu 1 2).2 = none
  ∧ (c8iface.activate 3 4).2 = some 7
  ∧ (c8iface.scroll 9 "horizontal").2 = some 9 := by
  have h1 := inbound_method_spec c8iface 1 2 9 "horizontal" "tok"
  have h2 := inbound_method_spec c8iface 3 4 9 "horizontal" "tok"
  obtain ⟨-, ⟨hcm, -, -, -, -⟩, ⟨-, hact, -, hscr, -⟩⟩ := h2
  obtain ⟨-, ⟨hcm1, -⟩, -⟩ := h1
  exact ⟨hcm1 rfl, hact (fun x y => x + y) rfl, hscr (fun d _ => d) rfl⟩

/-- Mutual exclusion of the two `Icon` projections at each variant. -/
theorem Icon.exclusive (i : Icon) :
    (∀ n, i = Icon.Name n → i.pixmaps_or_default = [])
  ∧ (∀ ps, i = Icon.Pixmaps ps → i.name_or_default = "")
  ∧ (i.name_or_default = "" ∨ i.pixmaps_or_default = []) := by
  cases i with
  | Name n =>
    refine ⟨fun _ _ => rfl, fun ps h => ?_, Or.inr rfl⟩
    simp at h
  | Pixmaps ps =>
    refine ⟨fun n h => ?_, fun _ _ => rfl, Or.inl rfl⟩
    simp at h

/-- C10: the paired name/pixmap property reads are mutually exclusive for
the icon, the overlay icon and the attention icon: a named icon reads
back an empty pixmap list, a pixmap icon reads back an empty name, so at
most one of each Name/Pixmap property pair is non-empty. -/
theorem icon_projection_exclusive_spec {ρ : Type}
    (iface : StatusNotifierItemInterface ρ) :
    (∀ n, iface.options.icon = Icon.Name n → iface.icon_pixmap = [])
  ∧ (∀ ps, iface.options.icon = Icon.Pixmaps ps → iface.icon_name = "")
  ∧ (iface.icon_name = "" ∨ iface.icon_pixmap = [])
  ∧ (∀ n, iface.options.overlay = Icon.Name n → iface.overlay_icon_pixmap = [])
  ∧ (∀ ps, iface.options.overlay = Icon.Pixmaps ps → iface.overlay_icon_name = "")
  ∧ (iface.overlay_icon_name = "" ∨ iface.overlay_icon_pixmap = [])
  ∧ (∀ n, iface.options.attention.icon = Icon.Name n →
      iface.attention_icon_pixmap = [])
  ∧ (∀ ps, iface.options.attention.icon = Icon.Pixmaps ps →
      iface.attention_icon_name = "")
  ∧ (iface.attention_icon_name = "" ∨ iface.attention_icon_pixmap = []) := by
  obtain ⟨hi1, hi2, hi3⟩ := Icon.exclusive iface.options.icon
  obtain ⟨ho1, ho2, ho3⟩ := Icon.exclusive iface.options.overlay
  obtain ⟨ha1, ha2, ha3⟩ := Icon.exclusive iface.options.attention.icon
  exact ⟨hi1, hi2, hi3, ho1, ho2, ho3, ha1, ha2, ha3⟩

/-- A concrete interface state exercising both `Icon` variants, used by
the projection-exclusivity witness. -/
def c10iface : StatusNotifierItemInterface Unit :=
  { id := "1"
    callbacks := ⟨none, none, none, none, none⟩
    options := { StatusNotifierItemOptions.default with
                 icon := Icon.Pixmaps [⟨1, 1, [0]⟩]
                 overlay := Icon.Name "over"
                 attention := ⟨Icon.Name "alert", "movie"⟩ }
    menu := none }

/-- Witness for C10 at a concrete interface state. -/
theorem icon_projection_exclusive_spec_witness :
    c10iface.icon_name = ""
  ∧ c10iface.overlay_icon_pixmap = []
  ∧ c10iface.attention_icon_pixmap = [] := by
  obtain ⟨-, hi2, -, ho1, -, -, ha1, -, -⟩ := icon_projection_exclusive_spec c10iface
  exact ⟨hi2 [⟨1, 1, [0]⟩] rfl, ho1 "over" rfl, ha1 "alert" rfl⟩

end StatusNotifier
